import Mathlib

/-
Shallow embedding of the lmhpp embeddable HTTP server header (namespace lmh).
The embedding follows the third, most recent revision of the header: the
connection state machine of DynamicController, the dispatcher and allow-list
of WebServer, the completion handler, and the daemon start loop.
External collaborators (the microhttpd transport) are modelled as oracles:
the value createResponse would produce, the success of MHD_queue_response,
and the failing step of each start_daemon iteration.
-/

namespace lmh

/-- Transport constant MHD_YES, the continue signal. -/
def MHD_YES : Nat := 1

/-- Transport constant MHD_NO, the abort signal. -/
def MHD_NO : Nat := 0

/-- HTTP status constant MHD_HTTP_OK. -/
def MHD_HTTP_OK : Nat := 200

/-- HTTP status constant MHD_HTTP_NOT_FOUND. -/
def MHD_HTTP_NOT_FOUND : Nat := 404

/-- HTTP status constant MHD_HTTP_FORBIDDEN. -/
def MHD_HTTP_FORBIDDEN : Nat := 403

/-- Modulus of the uint32_t counter request_waiting_loop_counter. -/
def UINT32_MOD : Nat := 2 ^ 32

/-- Per-connection state, from struct ConnectionState. The controller back
reference is kept implicit; the remaining fields are embedded directly. -/
structure ConnectionState where
  request_data : String := ""
  response_sent : Bool := false
  response_headers : List (String × String) := []
  response_data : String := ""
  request_waiting_loop_counter : Nat := 0
deriving DecidableEq

/-- Controller::create_state, the default state factory: a fresh state. -/
def create_state : ConnectionState := {}

/-- Result record of a user createResponse, from struct ResponseParams.
The default response_code is MHD_YES, value 1. -/
structure ResponseParams where
  response_code : Nat := MHD_YES
  response_message : String := ""
  headers : List (String × String) := []
deriving DecidableEq

/-- Static member DynamicController::waiting_usec_sleep, the timespec
of the fixed wait, 0 seconds and 10000000 nanoseconds, a 10 ms sleep. -/
def waiting_usec_sleep : Nat × Nat := (0, 10000000)

/-- Static member DynamicController::waiting_loops, the default wait
ceiling, about 3 seconds at 10 ms per loop. -/
def waiting_loops : Nat := 300

/-- One invocation input of DynamicController::handleRequest: the request
method, the upload_data pointer (none embeds nullptr), and the transport
oracles: what createResponse would return and write into the response
stream, and whether MHD_queue_response would succeed. -/
structure StepInput where
  method : String
  upload_data : Option String
  cr_params : ResponseParams
  cr_body : String
  queue_ok : Bool
deriving DecidableEq

/-- A response handed to MHD_queue_response: status, body and headers. -/
structure QueuedResponse where
  status : Nat
  body : String
  headers : List (String × String)
deriving DecidableEq

/-- Observed outcome of one invocation of DynamicController::handleRequest:
the returned signal, the updated state, whether createResponse was invoked,
the nanosleep performed if any, and the response queued if any. -/
structure StepOutput where
  ret : Nat
  state : ConnectionState
  called_createResponse : Bool
  slept : Option (Nat × Nat)
  queued : Option QueuedResponse
deriving DecidableEq

/-- DynamicController::handleRequest on an existing state, one invocation.
Mirrors the source branch for branch: a sent response short-circuits with
MHD_YES; an empty POST with no cached body bumps the counter and either
aborts past the ceiling or sleeps and continues; an empty cache invokes
createResponse, whose sentinel MHD_NO status aborts without caching and
whose ordinary result is cached; finally the cached body and headers are
queued with status MHD_HTTP_OK, marking the state sent on queue success,
and the handler returns MHD_YES. -/
def handleRequestStep (wl : Nat) (state : ConnectionState) (i : StepInput) :
    StepOutput :=
  if state.response_sent then
    { ret := MHD_YES, state := state, called_createResponse := false,
      slept := none, queued := none }
  else if i.method = "POST" ∧ i.upload_data = none ∧ state.response_data = "" then
    let c := (state.request_waiting_loop_counter + 1) % UINT32_MOD
    let state1 := { state with request_waiting_loop_counter := c }
    if c > wl then
      { ret := MHD_NO, state := state1, called_createResponse := false,
        slept := none, queued := none }
    else
      { ret := MHD_YES, state := state1, called_createResponse := false,
        slept := some waiting_usec_sleep, queued := none }
  else if state.response_data = "" then
    if i.cr_params.response_code = MHD_NO then
      { ret := MHD_NO, state := state, called_createResponse := true,
        slept := none, queued := none }
    else
      { ret := MHD_YES,
        state := { state with
                    response_data := i.cr_body,
                    response_headers := i.cr_params.headers,
                    response_sent := i.queue_ok },
        called_createResponse := true, slept := none,
        queued := some { status := MHD_HTTP_OK, body := i.cr_body,
                         headers := i.cr_params.headers } }
  else
    { ret := MHD_YES,
      state := { state with response_sent := i.queue_ok },
      called_createResponse := false, slept := none,
      queued := some { status := MHD_HTTP_OK, body := state.response_data,
                       headers := state.response_headers } }

/-- DynamicController::handleRequest including the creation of the state on
the first invocation, when the opaque slot is still null. -/
def handleRequest (wl : Nat) (ptr : Option ConnectionState) (i : StepInput) :
    StepOutput :=
  handleRequestStep wl (ptr.getD create_state) i

/-- Run a sequence of invocations of handleRequestStep against one
connection, threading the state; the transport stops invoking the handler
once it returns the abort signal MHD_NO. -/
def runTrace (wl : Nat) (s : ConnectionState) : List StepInput → List StepOutput
  | [] => []
  | i :: rest =>
    let o := handleRequestStep wl s i
    if o.ret = MHD_NO then [o]
    else o :: runTrace wl o.state rest

/-- Number of createResponse invocations in a trace. -/
def callCount (t : List StepOutput) : Nat :=
  t.countP (fun o => o.called_createResponse)

/-- Responses queued along a trace. -/
def queuedResponses (t : List StepOutput) : List QueuedResponse :=
  t.filterMap (fun o => o.queued)

/-- Signals returned along a trace. -/
def rets (t : List StepOutput) : List Nat :=
  t.map (fun o => o.ret)

/-- A registered controller, reduced to what the dispatcher consults: its
validPath predicate. -/
structure ControllerM where
  validPath : String → String → Bool

/-- The null check plus validPath call of the dispatcher loop: a null
shared_ptr entry never matches. -/
def opt_validPath (url method : String) (c : Option ControllerM) : Bool :=
  match c with
  | some c1 => c1.validPath url method
  | none => false

/-- Outcome of WebServer::request_handler: either a response queued by the
dispatcher itself, or delegation to the controller at a given position. -/
inductive DispatchResult where
  | queued (status : Nat) (body : String)
  | delegated (idx : Nat)
deriving DecidableEq

/-- The dispatcher loop: position of the first registered controller whose
validPath accepts the request, scanning in registration order. -/
def scan_controllers (url method : String) :
    List (Option ControllerM) → Option Nat
  | [] => none
  | c :: rest =>
    if opt_validPath url method c then some 0
    else (scan_controllers url method rest).map (fun k => k + 1)

/-- options_t::is_allowed_ip: any entry equal to the exact token all or the
exact token star passes every address; otherwise an entry passes only the
address it equals exactly. -/
def is_allowed_ip (allowed_ips : List String) (ip : String) : Bool :=
  allowed_ips.any (fun it => if it = "all" ∨ it = "*" then true else it = ip)

/-- Default of options_t::allowed_ips: the single wildcard entry. -/
def default_allowed_ips : List String := ["*"]

/-- WebServer::request_handler: the allow-list check first, answering
forbidden with an empty body on denial; then the scan in registration
order, delegating to the first match; a not found response with an empty
body when no controller matches. -/
def request_handler (allowed_ips : List String) (clientIp : String)
    (controllers : List (Option ControllerM)) (url method : String) :
    DispatchResult :=
  if is_allowed_ip allowed_ips clientIp = false then
    DispatchResult.queued MHD_HTTP_FORBIDDEN ""
  else
    match scan_controllers url method controllers with
    | some i => DispatchResult.delegated i
    | none => DispatchResult.queued MHD_HTTP_NOT_FOUND ""

/-- The peer descriptor of a connection as the address extraction sees it:
an IPv4 or IPv6 address with its textual rendering, or a descriptor of some
other family; none embeds an absent client address. -/
inductive SockAddr where
  | inet (rendered : String)
  | inet6 (rendered : String)
  | other
deriving DecidableEq

/-- WebServer::connection_ip: textual peer address, empty when the client
address is absent or of a family that is neither IPv4 nor IPv6. -/
def connection_ip : Option SockAddr → String
  | none => ""
  | some (SockAddr.inet s) => s
  | some (SockAddr.inet6 s) => s
  | some SockAddr.other => ""

/-- WebServer::is_ip_allowed: the allow-list applied to the extracted
address. -/
def is_ip_allowed (allowed_ips : List String) (ca : Option SockAddr) : Bool :=
  is_allowed_ip allowed_ips (connection_ip ca)

/-- Controller::handleComplete, the default completion override: delete the
state when present, answer MHD_YES. The first component counts deletions
performed, the second is the returned signal. -/
def handleComplete (toe : Nat) (cs : Option ConnectionState) : Nat × Nat :=
  match cs with
  | some _ => (1, MHD_YES)
  | none => (0, MHD_YES)

/-- WebServer::request_complete_handler: forward a non-null state to the
owning controller handleComplete; the result counts deletions of the
attached state. -/
def request_complete_handler (toe : Nat) (con_cls : Option ConnectionState) :
    Nat :=
  match con_cls with
  | some s => (handleComplete toe (some s)).1
  | none => 0

/-- Outcome of one iteration of the start_daemon loop, as decided by the
operating system and the transport: which step fails, or full success. -/
inductive EnvOutcome where
  | socketFail
  | ifaceBindFail
  | bindFail
  | listenFail
  | daemonFail
  | daemonOk
deriving DecidableEq

/-- Effects of one iteration of the start_daemon loop body on the given
outcome: whether a daemon now exists, whether the bottom of the loop with
its attempts decrement was reached, whether the partial socket was closed,
and the seconds slept. Socket, interface bind, address bind and listen
failures take the continue paths of the source, which skip the decrement;
only the two engine-start outcomes reach the bottom of the loop. -/
structure IterResult where
  daemon : Bool
  consumed_attempt : Bool
  closed_socket : Bool
  slept_seconds : Nat
deriving DecidableEq

/-- One iteration of the start_daemon loop body. -/
def start_daemon_iter : EnvOutcome → IterResult
  | EnvOutcome.socketFail =>
    { daemon := false, consumed_attempt := false, closed_socket := false,
      slept_seconds := 5 }
  | EnvOutcome.ifaceBindFail =>
    { daemon := false, consumed_attempt := false, closed_socket := true,
      slept_seconds := 5 }
  | EnvOutcome.bindFail =>
    { daemon := false, consumed_attempt := false, closed_socket := true,
      slept_seconds := 5 }
  | EnvOutcome.listenFail =>
    { daemon := false, consumed_attempt := false, closed_socket := true,
      slept_seconds := 5 }
  | EnvOutcome.daemonFail =>
    { daemon := false, consumed_attempt := true, closed_socket := false,
      slept_seconds := 5 }
  | EnvOutcome.daemonOk =>
    { daemon := true, consumed_attempt := true, closed_socket := false,
      slept_seconds := 0 }

/-- State of the start_daemon loop after n iterations, for a given
environment: whether a daemon exists and the current attempts counter. The
loop starts with no daemon and attempts at 12 and iterates while there is
no daemon and attempts is at least 0. -/
def start_daemon_state (env : Nat → EnvOutcome) : Nat → Bool × Int
  | 0 => (false, 12)
  | n + 1 =>
    let p := start_daemon_state env n
    if !p.1 && decide (0 ≤ p.2) then
      let r := start_daemon_iter (env n)
      (r.daemon, if r.consumed_attempt then p.2 - 1 else p.2)
    else p

/-- Whether the start_daemon loop is still running after n iterations. -/
def start_daemon_looping (env : Nat → EnvOutcome) (n : Nat) : Bool :=
  !(start_daemon_state env n).1 && decide (0 ≤ (start_daemon_state env n).2)

/-- Whether an iteration outcome reaches the engine start call. -/
def engine_start_outcome : EnvOutcome → Bool
  | EnvOutcome.daemonFail => true
  | EnvOutcome.daemonOk => true
  | _ => false

/-- Number of iterations among the first n that reach the engine start. -/
def engine_starts (env : Nat → EnvOutcome) (n : Nat) : Nat :=
  (List.range n).countP
    (fun k => start_daemon_looping env k && engine_start_outcome (env k))

/-- An empty POST invocation: no upload data has arrived yet. The oracle
fields are irrelevant on the waiting path. -/
def postProbe : StepInput :=
  { method := "POST", upload_data := none, cr_params := {}, cr_body := "",
    queue_ok := true }

/-- First input of the double-build trace: the build writes an empty body
and the queue attempt fails. -/
def cexEmptyBuild : StepInput :=
  { method := "GET", upload_data := none, cr_params := {}, cr_body := "",
    queue_ok := false }

/-- Second input of the double-build trace: an ordinary successful build. -/
def cexSecondBuild : StepInput :=
  { method := "GET", upload_data := none, cr_params := {}, cr_body := "x",
    queue_ok := true }

/-- An ordinary GET invocation whose build caches a non-empty body. -/
def getOkInput : StepInput :=
  { method := "GET", upload_data := none, cr_params := {}, cr_body := "hi",
    queue_ok := true }

/-- An invocation whose createResponse answers the sentinel MHD_NO. -/
def abortInput : StepInput :=
  { method := "GET", upload_data := none,
    cr_params := { response_code := MHD_NO }, cr_body := "ignored",
    queue_ok := true }

/-- A controller accepting every GET request. -/
def demoCtrlA : ControllerM := { validPath := fun _ m => m = "GET" }

/-- A controller accepting every request. -/
def demoCtrlB : ControllerM := { validPath := fun _ _ => true }

/-- Demo registration order: both controllers match a GET request. -/
def demoControllers : List (Option ControllerM) :=
  [some demoCtrlA, some demoCtrlB]

/-- The scan answers the index of a controller that matches and before which
every controller fails to match. -/
theorem scan_controllers_found (url method : String) :
    ∀ (cs : List (Option ControllerM)) (i : Nat) (hi : i < cs.length),
    opt_validPath url method (cs.get ⟨i, hi⟩) = true →
    (∀ j (hj : j < i),
        opt_validPath url method (cs.get ⟨j, Nat.lt_trans hj hi⟩) = false) →
    scan_controllers url method cs = some i := by
  intro cs
  induction cs with
  | nil => intro i hi; exact absurd hi (Nat.not_lt_zero i)
  | cons c rest ih =>
    intro i hi hv hfirst
    cases i with
    | zero =>
      have hc : opt_validPath url method c = true := hv
      simp [scan_controllers, hc]
    | succ i2 =>
      have hc : opt_validPath url method c = false :=
        hfirst 0 (Nat.succ_pos i2)
      have hi2 : i2 < rest.length := Nat.lt_of_succ_lt_succ hi
      have hv2 : opt_validPath url method (rest.get ⟨i2, hi2⟩) = true := hv
      have hrest := ih i2 hi2 hv2 (fun j hj => hfirst (j + 1) (Nat.succ_lt_succ hj))
      simp [scan_controllers, hc, hrest]

/-- The scan answers none when no controller matches. -/
theorem scan_controllers_none (url method : String) :
    ∀ cs : List (Option ControllerM),
    (∀ j (hj : j < cs.length),
        opt_validPath url method (cs.get ⟨j, hj⟩) = false) →
    scan_controllers url method cs = none := by
  intro cs
  induction cs with
  | nil => intro _; rfl
  | cons c rest ih =>
    intro hall
    have hc : opt_validPath url method c = false := hall 0 (Nat.succ_pos rest.length)
    have hrest := ih (fun j hj => hall (j + 1) (Nat.succ_lt_succ hj))
    simp [scan_controllers, hc, hrest]

/-- C3: for every ordered controller list and every request from an allowed
source, request_handler delegates to the first controller in registration
order whose validPath accepts the path and method, even when later
controllers would also match; when no controller matches it queues the
not found status 404 with an empty body. -/
theorem C3_first_match_dispatch (allowed : List String) (ip : String)
    (cs : List (Option ControllerM)) (url method : String)
    (hip : is_allowed_ip allowed ip = true) :
    (∀ i (hi : i < cs.length),
        opt_validPath url method (cs.get ⟨i, hi⟩) = true →
        (∀ j (hj : j < i),
            opt_validPath url method (cs.get ⟨j, Nat.lt_trans hj hi⟩) = false) →
        request_handler allowed ip cs url method = DispatchResult.delegated i) ∧
    ((∀ j (hj : j < cs.length),
        opt_validPath url method (cs.get ⟨j, hj⟩) = false) →
      request_handler allowed ip cs url method =
        DispatchResult.queued MHD_HTTP_NOT_FOUND "") := by
  constructor
  · intro i hi hv hfirst
    have hscan := scan_controllers_found url method cs i hi hv hfirst
    simp [request_handler, hip, hscan]
  · intro hall
    have hscan := scan_controllers_none url method cs hall
    simp [request_handler, hip, hscan]

/-- C3 witness: with the wildcard allow-list, a GET on the demo registration
where both controllers match is delegated to the first one. -/
theorem C3_first_match_dispatch_witness :
    request_handler ["*"] "1.2.3.4" demoControllers "/" "GET" =
      DispatchResult.delegated 0 := by
  have h := C3_first_match_dispatch ["*"] "1.2.3.4" demoControllers "/" "GET"
    (by decide)
  exact h.1 0 (by decide) (by decide) (fun j hj => absurd hj (Nat.not_lt_zero j))

/-- C4: is_allowed_ip accepts every address when some entry is the exact
token star or the exact token all; otherwise it accepts exactly the
addresses listed verbatim. -/
theorem C4_allow_list_semantics (allowed : List String) (ip : String) :
    ((∃ e ∈ allowed, e = "*" ∨ e = "all") → is_allowed_ip allowed ip = true) ∧
    ((∀ e ∈ allowed, e ≠ "*" ∧ e ≠ "all") →
      (is_allowed_ip allowed ip = true ↔ ip ∈ allowed)) := by
  constructor
  · rintro ⟨e, he, hcase⟩
    simp only [is_allowed_ip, List.any_eq_true]
    refine ⟨e, he, ?_⟩
    rcases hcase with h | h <;> simp [h]
  · intro hno
    simp only [is_allowed_ip, List.any_eq_true]
    constructor
    · rintro ⟨e, he, hv⟩
      have hne := hno e he
      rw [if_neg (by tauto)] at hv
      have : e = ip := by simpa using hv
      exact this ▸ he
    · intro hmem
      refine ⟨ip, hmem, ?_⟩
      split
      · rfl
      · simp

/-- C4 witness: an allow-list without wildcard entries rejects an address
that is not listed verbatim. -/
theorem C4_allow_list_semantics_witness :
    is_allowed_ip ["10.0.0.1"] "10.0.0.2" = true ↔
      "10.0.0.2" ∈ ["10.0.0.1"] :=
  (C4_allow_list_semantics ["10.0.0.1"] "10.0.0.2").2 (by decide)

/-- C5: when the allow-list denies the source address, request_handler
queues the forbidden status 403 with an empty body, and its outcome does
not depend on the registered controllers, so neither validPath nor
handleRequest of any controller is consulted. -/
theorem C5_deny_before_dispatch (allowed : List String) (ip : String)
    (cs : List (Option ControllerM)) (url method : String)
    (hdeny : is_allowed_ip allowed ip = false) :
    request_handler allowed ip cs url method =
      DispatchResult.queued MHD_HTTP_FORBIDDEN "" ∧
    ∀ cs2, request_handler allowed ip cs url method =
      request_handler allowed ip cs2 url method := by
  refine ⟨by simp [request_handler, hdeny], fun cs2 => ?_⟩
  simp [request_handler, hdeny]

/-- C5 witness: a denied source gets the forbidden response. -/
theorem C5_deny_before_dispatch_witness :
    request_handler ["10.0.0.1"] "10.0.0.2" demoControllers "/" "GET" =
      DispatchResult.queued MHD_HTTP_FORBIDDEN "" :=
  (C5_deny_before_dispatch ["10.0.0.1"] "10.0.0.2" demoControllers "/" "GET"
    (by decide)).1

/-- C6: when createResponse answers the sentinel status MHD_NO on a request
whose body is available or not required, handleRequest returns the abort
signal at once: the state is returned unchanged, so the cached body,
headers and sent flag are untouched, and no response is queued. -/
theorem C6_abort_sentinel (wl : Nat) (s : ConnectionState) (i : StepInput)
    (hsent : s.response_sent = false) (hdata : s.response_data = "")
    (hbody : ¬(i.method = "POST" ∧ i.upload_data = none))
    (habort : i.cr_params.response_code = MHD_NO) :
    (handleRequestStep wl s i).ret = MHD_NO ∧
    (handleRequestStep wl s i).called_createResponse = true ∧
    (handleRequestStep wl s i).state = s ∧
    (handleRequestStep wl s i).queued = none := by
  simp [handleRequestStep, hsent, hdata, hbody, habort]

/-- C6 witness: a sentinel build on a fresh GET aborts without caching. -/
theorem C6_abort_sentinel_witness :
    (handleRequestStep 300 create_state abortInput).ret = MHD_NO ∧
    (handleRequestStep 300 create_state abortInput).called_createResponse
      = true ∧
    (handleRequestStep 300 create_state abortInput).state = create_state ∧
    (handleRequestStep 300 create_state abortInput).queued = none :=
  C6_abort_sentinel 300 create_state abortInput rfl rfl (by decide) rfl

/-- C8: whatever the termination reason, the completion callback forwards a
present state to handleComplete, whose default deletes it exactly once and
acknowledges with MHD_YES; an absent state is deleted zero times. -/
theorem C8_completion_destroys_once (toe : Nat) (s : ConnectionState) :
    request_complete_handler toe (some s) = 1 ∧
    request_complete_handler toe none = 0 ∧
    (handleComplete toe (some s)).2 = MHD_YES :=
  ⟨rfl, rfl, rfl⟩

/-- C10: every response queued by DynamicController handleRequest carries
the status MHD_HTTP_OK, that is 200, independent of the response_code of
the ResponseParams; the default response_code is MHD_YES, that is 1. -/
theorem C10_wire_status_always_ok (wl : Nat) (s : ConnectionState)
    (i : StepInput) :
    (∀ q : QueuedResponse, (handleRequestStep wl s i).queued = some q →
        q.status = MHD_HTTP_OK) ∧
    ({} : ResponseParams).response_code = MHD_YES ∧
    MHD_YES = 1 ∧ MHD_HTTP_OK = 200 := by
  refine ⟨?_, rfl, rfl, rfl⟩
  intro q hq
  by_cases h1 : s.response_sent
  · simp [handleRequestStep, h1] at hq
  · by_cases h2 : i.method = "POST" ∧ i.upload_data = none ∧
        s.response_data = ""
    · by_cases h3 : (s.request_waiting_loop_counter + 1) % UINT32_MOD > wl
      · simp [handleRequestStep, h1, h2, h3] at hq
      · simp [handleRequestStep, h1, h2, h3] at hq
    · by_cases h4 : s.response_data = ""
      · have h2b : ¬(i.method = "POST" ∧ i.upload_data = none) := by
          rintro ⟨ha, hb⟩
          exact h2 ⟨ha, hb, h4⟩
        by_cases h5 : i.cr_params.response_code = MHD_NO
        · simp [handleRequestStep, h1, h2b, h4, h5] at hq
        · have hsome : (handleRequestStep wl s i).queued =
              some { status := MHD_HTTP_OK, body := i.cr_body,
                     headers := i.cr_params.headers } := by
            simp [handleRequestStep, h1, h2b, h4, h5]
          rw [hsome, Option.some_inj] at hq
          rw [← hq]
      · have hsome : (handleRequestStep wl s i).queued =
            some { status := MHD_HTTP_OK, body := s.response_data,
                   headers := s.response_headers } := by
          simp [handleRequestStep, h1, h2, h4]
        rw [hsome, Option.some_inj] at hq
        rw [← hq]

/-- C10 witness: the response queued for a fresh GET whose build answers
the default ResponseParams is sent with status 200. -/
theorem C10_wire_status_always_ok_witness :
    QueuedResponse.status
      { status := MHD_HTTP_OK, body := "hi", headers := [] } = MHD_HTTP_OK :=
  (C10_wire_status_always_ok 300 create_state getOkInput).1
    { status := MHD_HTTP_OK, body := "hi", headers := [] } rfl

/-- C1: on a POST invocation with no upload data and no cached response,
handleRequest bumps the wait counter; past the ceiling it returns the
abort signal MHD_NO without sleeping, otherwise it sleeps the fixed 10 ms
interval and returns the continue signal MHD_YES; createResponse is not
consulted and nothing is queued; the default ceiling is 300; with a
ceiling of 1 the second empty invocation aborts the connection. -/
theorem C1_post_wait_timeout (wl : Nat) (s : ConnectionState) (i : StepInput)
    (hsent : s.response_sent = false) (hdata : s.response_data = "")
    (hm : i.method = "POST") (hu : i.upload_data = none) :
    (handleRequestStep wl s i).state.request_waiting_loop_counter
        = (s.request_waiting_loop_counter + 1) % UINT32_MOD ∧
    (handleRequestStep wl s i).called_createResponse = false ∧
    (handleRequestStep wl s i).queued = none ∧
    ((s.request_waiting_loop_counter + 1) % UINT32_MOD > wl →
        (handleRequestStep wl s i).ret = MHD_NO ∧
        (handleRequestStep wl s i).slept = none) ∧
    (¬ (s.request_waiting_loop_counter + 1) % UINT32_MOD > wl →
        (handleRequestStep wl s i).ret = MHD_YES ∧
        (handleRequestStep wl s i).slept = some waiting_usec_sleep) ∧
    waiting_loops = 300 ∧
    rets (runTrace 1 create_state [postProbe, postProbe])
        = [MHD_YES, MHD_NO] := by
  by_cases hgt : (s.request_waiting_loop_counter + 1) % UINT32_MOD > wl
  · simp [handleRequestStep, hsent, hdata, hm, hu, hgt, waiting_loops]
    decide
  · simp [handleRequestStep, hsent, hdata, hm, hu, hgt, waiting_loops]
    decide

/-- C1 witness: the first empty POST probe on a fresh connection with the
default ceiling bumps the counter to one, sleeps 10 ms and continues. -/
theorem C1_post_wait_timeout_witness :
    (handleRequestStep 300 create_state postProbe).state.request_waiting_loop_counter
        = (create_state.request_waiting_loop_counter + 1) % UINT32_MOD ∧
    (handleRequestStep 300 create_state postProbe).called_createResponse
        = false ∧
    (handleRequestStep 300 create_state postProbe).queued = none ∧
    ((create_state.request_waiting_loop_counter + 1) % UINT32_MOD > 300 →
        (handleRequestStep 300 create_state postProbe).ret = MHD_NO ∧
        (handleRequestStep 300 create_state postProbe).slept = none) ∧
    (¬ (create_state.request_waiting_loop_counter + 1) % UINT32_MOD > 300 →
        (handleRequestStep 300 create_state postProbe).ret = MHD_YES ∧
        (handleRequestStep 300 create_state postProbe).slept
          = some waiting_usec_sleep) ∧
    waiting_loops = 300 ∧
    rets (runTrace 1 create_state [postProbe, postProbe])
        = [MHD_YES, MHD_NO] :=
  C1_post_wait_timeout 300 create_state postProbe rfl rfl rfl rfl

/-- C9 counterexample: a peer of unknown address family extracts to the
empty address, yet under the default allow-list the wildcard entry admits
it, and the dispatcher proceeds to routing, answering not found rather
than forbidden. -/
theorem C9_counterexample :
    connection_ip (some SockAddr.other) = "" ∧
    connection_ip none = "" ∧
    is_ip_allowed default_allowed_ips (some SockAddr.other) = true ∧
    request_handler default_allowed_ips (connection_ip (some SockAddr.other))
        [] "/" "GET" = DispatchResult.queued MHD_HTTP_NOT_FOUND "" := by
  decide

/-- C9: a peer with no address or an address family that is neither IPv4
nor IPv6 extracts to the empty address; provided no allow-list entry is a
wildcard token or the empty string, the admission check denies it and the
connection is rejected with forbidden before any routing. -/
theorem C9_unknown_family_denied (allowed : List String) (ca : Option SockAddr)
    (hfam : ca = none ∨ ca = some SockAddr.other)
    (hw : ∀ e ∈ allowed, e ≠ "*" ∧ e ≠ "all" ∧ e ≠ "") :
    connection_ip ca = "" ∧
    is_ip_allowed allowed ca = false ∧
    ∀ (cs : List (Option ControllerM)) (url method : String),
      request_handler allowed (connection_ip ca) cs url method =
        DispatchResult.queued MHD_HTTP_FORBIDDEN "" := by
  have hip : connection_ip ca = "" := by
    rcases hfam with h | h <;> rw [h] <;> rfl
  have hden : is_allowed_ip allowed "" = false := by
    rw [← Bool.not_eq_true]
    intro htrue
    rw [is_allowed_ip, List.any_eq_true] at htrue
    obtain ⟨e, he, hv⟩ := htrue
    obtain ⟨h1, h2, h3⟩ := hw e he
    rw [if_neg (by tauto)] at hv
    exact h3 (by simpa using hv)
  refine ⟨hip, ?_, ?_⟩
  · rw [is_ip_allowed, hip]
    exact hden
  · intro cs url method
    rw [hip]
    simp [request_handler, hden]

/-- C9 witness: with an allow-list of one plain address, an absent peer
address extracts to the empty string and is denied. -/
theorem C9_unknown_family_denied_witness :
    connection_ip (none : Option SockAddr) = "" ∧
    is_ip_allowed ["10.0.0.1"] (none : Option SockAddr) = false := by
  have h := C9_unknown_family_denied ["10.0.0.1"] none (Or.inl rfl) (by decide)
  exact ⟨h.1, h.2.1⟩

/-- On a state with a cached body or a sent response, one invocation never
calls createResponse, returns the continue signal, preserves the cached
body and headers, keeps the state cached or sent, and queues at most the
cached response. -/
theorem handleRequestStep_cached (wl : Nat) (s : ConnectionState)
    (i : StepInput) (hg : s.response_data ≠ "" ∨ s.response_sent = true) :
    (handleRequestStep wl s i).called_createResponse = false ∧
    (handleRequestStep wl s i).ret = MHD_YES ∧
    (handleRequestStep wl s i).state.response_data = s.response_data ∧
    (handleRequestStep wl s i).state.response_headers = s.response_headers ∧
    ((handleRequestStep wl s i).state.response_data ≠ "" ∨
        (handleRequestStep wl s i).state.response_sent = true) ∧
    ((handleRequestStep wl s i).queued = none ∨
      (handleRequestStep wl s i).queued =
        some { status := MHD_HTTP_OK, body := s.response_data,
               headers := s.response_headers }) := by
  by_cases h1 : s.response_sent
  · simp [handleRequestStep, h1]
  · have hd : s.response_data ≠ "" := by
      rcases hg with h | h
      · exact h
      · exact absurd h h1
    have h2b : ¬(i.method = "POST" ∧ i.upload_data = none ∧
        s.response_data = "") := by
      rintro ⟨_, _, hc⟩
      exact hd hc
    simp [handleRequestStep, h1, h2b, hd]

/-- Counting createResponse calls distributes over a trace cons. -/
theorem callCount_cons (o : StepOutput) (t : List StepOutput) :
    callCount (o :: t) = callCount t +
      (if o.called_createResponse = true then 1 else 0) := by
  simp [callCount, List.countP_cons]

/-- Collecting queued responses distributes over a trace cons. -/
theorem queuedResponses_none_cons (o : StepOutput) (t : List StepOutput)
    (h : o.queued = none) : queuedResponses (o :: t) = queuedResponses t := by
  simp [queuedResponses, List.filterMap_cons, h]

/-- A cons with a queued response contributes it in front. -/
theorem queuedResponses_some_cons (o : StepOutput) (t : List StepOutput)
    (q : QueuedResponse) (h : o.queued = some q) :
    queuedResponses (o :: t) = q :: queuedResponses t := by
  simp [queuedResponses, List.filterMap_cons, h]

/-- A trace continues past an invocation returning the continue signal. -/
theorem runTrace_cons_yes (wl : Nat) (s : ConnectionState) (i : StepInput)
    (rest : List StepInput) (h : (handleRequestStep wl s i).ret = MHD_YES) :
    runTrace wl s (i :: rest) =
      handleRequestStep wl s i ::
        runTrace wl (handleRequestStep wl s i).state rest := by
  simp [runTrace, h, MHD_YES, MHD_NO]

/-- A trace stops at an invocation returning the abort signal. -/
theorem runTrace_cons_no (wl : Nat) (s : ConnectionState) (i : StepInput)
    (rest : List StepInput) (h : (handleRequestStep wl s i).ret = MHD_NO) :
    runTrace wl s (i :: rest) = [handleRequestStep wl s i] := by
  simp [runTrace, h]

/-- Once the state carries a cached body or a sent response, the rest of
the trace never calls createResponse and queues only the cached body with
the cached headers. -/
theorem runTrace_cached (wl : Nat) (l : List StepInput) :
    ∀ s : ConnectionState, s.response_data ≠ "" ∨ s.response_sent = true →
    callCount (runTrace wl s l) = 0 ∧
    ∀ q ∈ queuedResponses (runTrace wl s l),
      q = { status := MHD_HTTP_OK, body := s.response_data,
            headers := s.response_headers } := by
  induction l with
  | nil =>
    intro s hg
    simp [runTrace, callCount, queuedResponses]
  | cons i rest ih =>
    intro s hg
    obtain ⟨hc, hr, hd, hh, hg2, hq⟩ := handleRequestStep_cached wl s i hg
    have hrun := runTrace_cons_yes wl s i rest hr
    obtain ⟨ih1, ih2⟩ := ih (handleRequestStep wl s i).state hg2
    constructor
    · rw [hrun, callCount_cons, hc]
      simpa using ih1
    · intro q hqm
      rw [hrun] at hqm
      rcases hq with hnone | hsome
      · rw [queuedResponses_none_cons _ _ hnone] at hqm
        have := ih2 q hqm
        rw [hd, hh] at this
        exact this
      · rw [queuedResponses_some_cons _ _ _ hsome] at hqm
        rcases List.mem_cons.1 hqm with h | h
        · exact h
        · have := ih2 q h
          rw [hd, hh] at this
          exact this

/-- From a fresh state, under inputs whose build result has a non-empty
body or a succeeding queue attempt, a trace calls createResponse at most
once and all its queued responses coincide. -/
theorem runTrace_fresh (wl : Nat) (l : List StepInput) :
    ∀ s : ConnectionState, s.response_data = "" → s.response_sent = false →
    (∀ i ∈ l, i.cr_body ≠ "" ∨ i.queue_ok = true) →
    callCount (runTrace wl s l) ≤ 1 ∧
    ∃ Q : QueuedResponse, ∀ q ∈ queuedResponses (runTrace wl s l), q = Q := by
  induction l with
  | nil =>
    intro s hd hs h
    refine ⟨by simp [runTrace, callCount], ?_⟩
    exact ⟨{ status := MHD_HTTP_OK, body := "", headers := [] },
      by simp [runTrace, queuedResponses]⟩
  | cons i rest ih =>
    intro s hd hs h
    by_cases hpost : i.method = "POST" ∧ i.upload_data = none
    · by_cases hgt : (s.request_waiting_loop_counter + 1) % UINT32_MOD > wl
      · have hsr : (handleRequestStep wl s i).ret = MHD_NO := by
          simp [handleRequestStep, hs, hd, hpost.1, hpost.2, hgt]
        have hsc : (handleRequestStep wl s i).called_createResponse = false := by
          simp [handleRequestStep, hs, hd, hpost.1, hpost.2, hgt]
        have hsq : (handleRequestStep wl s i).queued = none := by
          simp [handleRequestStep, hs, hd, hpost.1, hpost.2, hgt]
        have hrun := runTrace_cons_no wl s i rest hsr
        refine ⟨?_, ?_⟩
        · rw [hrun, callCount_cons, hsc]
          simp [callCount]
        · refine ⟨{ status := MHD_HTTP_OK, body := "", headers := [] }, ?_⟩
          intro q hqm
          rw [hrun, queuedResponses_none_cons _ _ hsq] at hqm
          simp [queuedResponses] at hqm
      · have hsr : (handleRequestStep wl s i).ret = MHD_YES := by
          simp [handleRequestStep, hs, hd, hpost.1, hpost.2, hgt]
        have hsc : (handleRequestStep wl s i).called_createResponse = false := by
          simp [handleRequestStep, hs, hd, hpost.1, hpost.2, hgt]
        have hsq : (handleRequestStep wl s i).queued = none := by
          simp [handleRequestStep, hs, hd, hpost.1, hpost.2, hgt]
        have hd2 : (handleRequestStep wl s i).state.response_data = "" := by
          simp [handleRequestStep, hs, hd, hpost.1, hpost.2, hgt]
        have hs2 : (handleRequestStep wl s i).state.response_sent = false := by
          simp [handleRequestStep, hs, hd, hpost.1, hpost.2, hgt]
        have hrun := runTrace_cons_yes wl s i rest hsr
        obtain ⟨ih1, Q, ihQ⟩ := ih (handleRequestStep wl s i).state hd2 hs2
          (fun j hj => h j (List.mem_cons_of_mem i hj))
        refine ⟨?_, ⟨Q, ?_⟩⟩
        · rw [hrun, callCount_cons, hsc]
          simpa using ih1
        · intro q hqm
          rw [hrun, queuedResponses_none_cons _ _ hsq] at hqm
          exact ihQ q hqm
    · by_cases hab : i.cr_params.response_code = MHD_NO
      · have hsr : (handleRequestStep wl s i).ret = MHD_NO := by
          simp [handleRequestStep, hs, hd, hpost, hab]
        have hsc : (handleRequestStep wl s i).called_createResponse = true := by
          simp [handleRequestStep, hs, hd, hpost, hab]
        have hsq : (handleRequestStep wl s i).queued = none := by
          simp [handleRequestStep, hs, hd, hpost, hab]
        have hrun := runTrace_cons_no wl s i rest hsr
        refine ⟨?_, ?_⟩
        · rw [hrun, callCount_cons, hsc]
          simp [callCount]
        · refine ⟨{ status := MHD_HTTP_OK, body := "", headers := [] }, ?_⟩
          intro q hqm
          rw [hrun, queuedResponses_none_cons _ _ hsq] at hqm
          simp [queuedResponses] at hqm
      · have hsr : (handleRequestStep wl s i).ret = MHD_YES := by
          simp [handleRequestStep, hs, hd, hpost, hab]
        have hsc : (handleRequestStep wl s i).called_createResponse = true := by
          simp [handleRequestStep, hs, hd, hpost, hab]
        have hsq : (handleRequestStep wl s i).queued =
            some { status := MHD_HTTP_OK, body := i.cr_body,
                   headers := i.cr_params.headers } := by
          simp [handleRequestStep, hs, hd, hpost, hab]
        have hd2 : (handleRequestStep wl s i).state.response_data
            = i.cr_body := by
          simp [handleRequestStep, hs, hd, hpost, hab]
        have hh2 : (handleRequestStep wl s i).state.response_headers
            = i.cr_params.headers := by
          simp [handleRequestStep, hs, hd, hpost, hab]
        have hs2 : (handleRequestStep wl s i).state.response_sent
            = i.queue_ok := by
          simp [handleRequestStep, hs, hd, hpost, hab]
        have hgood : (handleRequestStep wl s i).state.response_data ≠ "" ∨
            (handleRequestStep wl s i).state.response_sent = true := by
          rcases h i (List.mem_cons_self i rest) with hb | hqok
          · left
            rw [hd2]
            exact hb
          · right
            rw [hs2]
            exact hqok
        have hrun := runTrace_cons_yes wl s i rest hsr
        obtain ⟨r1, r2⟩ := runTrace_cached wl rest
          (handleRequestStep wl s i).state hgood
        refine ⟨?_, ?_⟩
        · rw [hrun, callCount_cons, hsc, r1]
          simp
        · refine ⟨{ status := MHD_HTTP_OK, body := i.cr_body,
                    headers := i.cr_params.headers }, ?_⟩
          intro q hqm
          rw [hrun, queuedResponses_some_cons _ _ _ hsq] at hqm
          rcases List.mem_cons.1 hqm with hcase | hcase
          · exact hcase
          · have := r2 q hcase
            rw [hd2, hh2] at this
            exact this

/-- C2 counterexample: when the first build writes an empty body and its
queue attempt fails, nothing registers as cached or sent, so the next
invocation runs createResponse a second time: the claimed at most one
build per connection is violated. -/
theorem C2_counterexample :
    callCount (runTrace 300 create_state [cexEmptyBuild, cexSecondBuild])
      = 2 := by
  decide

/-- C2 amended: provided every build result carries a non-empty body or a
succeeding queue attempt, createResponse runs at most once per connection
and every response queued for the connection is identical, even though the
build oracle may differ between invocations. -/
theorem C2_build_once_idempotent (wl : Nat) (l : List StepInput)
    (h : ∀ i ∈ l, i.cr_body ≠ "" ∨ i.queue_ok = true) :
    callCount (runTrace wl create_state l) ≤ 1 ∧
    ∀ q ∈ queuedResponses (runTrace wl create_state l),
      ∀ q2 ∈ queuedResponses (runTrace wl create_state l), q = q2 := by
  obtain ⟨h1, Q, hQ⟩ := runTrace_fresh wl l create_state rfl rfl h
  exact ⟨h1, fun q hq q2 hq2 => (hQ q hq).trans (hQ q2 hq2).symm⟩

/-- C2 witness: two successive successful GET builds call createResponse
once in total. -/
theorem C2_build_once_idempotent_witness :
    callCount (runTrace 300 create_state [getOkInput, getOkInput]) ≤ 1 :=
  (C2_build_once_idempotent 300 [getOkInput, getOkInput] (by decide)).1

/-- An iteration reaches the attempts decrement at the bottom of the loop
exactly when it reaches the engine start. -/
theorem consumed_eq_engine_start (o : EnvOutcome) :
    (start_daemon_iter o).consumed_attempt = engine_start_outcome o := by
  cases o <;> rfl

/-- Unfolding of the loop state one iteration at a time. -/
theorem start_daemon_state_succ (env : Nat → EnvOutcome) (n : Nat) :
    start_daemon_state env (n + 1) =
      if start_daemon_looping env n then
        ((start_daemon_iter (env n)).daemon,
          if (start_daemon_iter (env n)).consumed_attempt then
            (start_daemon_state env n).2 - 1
          else (start_daemon_state env n).2)
      else start_daemon_state env n := rfl

/-- Unfolding of the engine start count one iteration at a time. -/
theorem engine_starts_succ (env : Nat → EnvOutcome) (n : Nat) :
    engine_starts env (n + 1) = engine_starts env n +
      (if start_daemon_looping env n && engine_start_outcome (env n)
        then 1 else 0) := by
  simp [engine_starts, List.range_succ, List.countP_append, List.countP_cons]

/-- The attempts counter equals 12 minus the number of engine starts. -/
theorem start_daemon_attempts (env : Nat → EnvOutcome) :
    ∀ n, (start_daemon_state env n).2 = 12 - (engine_starts env n : Int) := by
  intro n
  induction n with
  | zero => simp [start_daemon_state, engine_starts]
  | succ n ih =>
    rw [start_daemon_state_succ, engine_starts_succ]
    by_cases hl : start_daemon_looping env n = true
    · rw [if_pos hl]
      by_cases he : engine_start_outcome (env n) = true
      · rw [consumed_eq_engine_start, if_pos he]
        simp only [hl, he, Bool.and_self, if_pos]
        push_cast
        omega
      · rw [consumed_eq_engine_start,
          if_neg (by simpa using he)]
        simp only [hl, Bool.true_and]
        rw [if_neg (by simpa using he)]
        simpa using ih
    · rw [if_neg hl]
      have : (start_daemon_looping env n && engine_start_outcome (env n))
          = false := by
        simp [Bool.eq_false_iff.2 hl]
      rw [this]
      simpa using ih

/-- While the loop is still running, at most 12 engine starts occurred. -/
theorem looping_engine_starts_le (env : Nat → EnvOutcome) (n : Nat)
    (h : start_daemon_looping env n = true) : engine_starts env n ≤ 12 := by
  have hatt := start_daemon_attempts env n
  rw [start_daemon_looping, Bool.and_eq_true, decide_eq_true_iff] at h
  have h2 := h.2
  rw [hatt] at h2
  omega

/-- Over any environment, the loop performs at most 13 engine starts. -/
theorem engine_starts_le_13 (env : Nat → EnvOutcome) :
    ∀ n, engine_starts env n ≤ 13 := by
  intro n
  induction n with
  | zero => simp [engine_starts]
  | succ n ih =>
    rw [engine_starts_succ]
    by_cases hl : start_daemon_looping env n = true
    · by_cases he : engine_start_outcome (env n) = true
      · have := looping_engine_starts_le env n hl
        simp only [hl, he, Bool.and_self, if_pos]
        omega
      · have : (start_daemon_looping env n && engine_start_outcome (env n))
            = false := by
          simp [Bool.eq_false_iff.2 he]
        rw [this]
        simpa using ih
    · have : (start_daemon_looping env n && engine_start_outcome (env n))
          = false := by
        simp [Bool.eq_false_iff.2 hl]
      rw [this]
      simpa using ih

/-- Under an environment whose bind always fails, the loop state never
changes: no daemon, attempts still at 12. -/
theorem bindFail_state :
    ∀ n, start_daemon_state (fun _ => EnvOutcome.bindFail) n = (false, 12) := by
  intro n
  induction n with
  | zero => rfl
  | succ n ih =>
    rw [start_daemon_state_succ]
    have hl : start_daemon_looping (fun _ => EnvOutcome.bindFail) n = true := by
      rw [start_daemon_looping, ih]
      decide
    rw [if_pos hl, ih]
    rfl

/-- Under an environment whose bind always fails, the loop never stops. -/
theorem bindFail_looping (n : Nat) :
    start_daemon_looping (fun _ => EnvOutcome.bindFail) n = true := by
  rw [start_daemon_looping, bindFail_state n]
  decide

/-- C7 counterexample: under persistently failing address binds, after 20
iterations the start_daemon loop is still running and its attempts counter
still reads 12: bind failures neither consume attempts nor bound the run,
against the claimed termination within the fixed attempt budget. -/
theorem C7_counterexample :
    start_daemon_looping (fun _ => EnvOutcome.bindFail) 20 = true ∧
    (start_daemon_state (fun _ => EnvOutcome.bindFail) 20).2 = 12 :=
  ⟨bindFail_looping 20, by rw [bindFail_state 20]⟩

/-- C7 amended: only iterations that reach the transport engine start
consume an attempt, and any run performs at most 13 of them, the counter
running from 12 down through 0; socket creation, interface bind, address
bind and listen failures sleep the 5 second backoff and retry without
consuming an attempt, the bind stage failures closing the partial socket,
so under persistent failures of those stages the loop runs forever. -/
theorem C7_engine_start_budget :
    (∀ (env : Nat → EnvOutcome) (n : Nat), engine_starts env n ≤ 13) ∧
    (start_daemon_iter EnvOutcome.socketFail).consumed_attempt = false ∧
    (start_daemon_iter EnvOutcome.ifaceBindFail).consumed_attempt = false ∧
    (start_daemon_iter EnvOutcome.bindFail).consumed_attempt = false ∧
    (start_daemon_iter EnvOutcome.listenFail).consumed_attempt = false ∧
    (start_daemon_iter EnvOutcome.ifaceBindFail).closed_socket = true ∧
    (start_daemon_iter EnvOutcome.bindFail).closed_socket = true ∧
    (start_daemon_iter EnvOutcome.listenFail).closed_socket = true ∧
    (start_daemon_iter EnvOutcome.bindFail).slept_seconds = 5 ∧
    (start_daemon_iter EnvOutcome.daemonFail).consumed_attempt = true ∧
    (start_daemon_iter EnvOutcome.daemonFail).slept_seconds = 5 ∧
    (∀ n, start_daemon_looping (fun _ => EnvOutcome.bindFail) n = true) :=
  ⟨engine_starts_le_13, rfl, rfl, rfl, rfl, rfl, rfl, rfl, rfl, rfl, rfl,
    bindFail_looping⟩

end lmh
